import Mathlib

/-!
Movie finder engine: a formal model of `movieapp.py`.

This file gives a shallow embedding of the data-preparation, filtering and
aggregation engine of the movie-finder application (`movieapp.py`) and proves
properties of it.  The embedding follows the source line by line:

* `load_data` (source lines 13-37): derive `Runtime_Minutes` from the raw
  `Runtime` column via the regex `(\d+)` followed by `astype(int)` — which is a
  whole-column conversion that raises (and thereby fails the whole load, since
  the `except` branch returns `None, None`) as soon as a single cell has no
  digit run — derive `Decade` by floor division, and collect the sorted genre
  vocabulary by comma-splitting and stripping each non-NaN `Genre` cell.
* `filter_movies` (lines 39-58): three masks applied in sequence; each mask is
  skipped when its criterion is Python-falsy, i.e. an empty selection list, a
  `None` max runtime, or a `0` max runtime.  The genre mask is the Python
  substring test `genre in str(x)` over the selected genres; a NaN genre cell
  is `False`; a NaN runtime fails the `<=` comparison.
* `main` (lines 60-202), restricted to engine-visible data flow: load, filter,
  the early return on an empty result, `sort_values('IMDB_Rating',
  ascending=False)`, `head`-truncation by the display count, and the four
  summary statistics computed over the (sorted, untruncated) filtered frame.

Numbers: ratings are modelled as `ℚ` (the float values in play are exact),
years and runtimes as `ℤ`/`ℕ`.  NaN cells of optional columns are `Option.none`.
Presentation-only columns (poster, overview, cast, votes, metascore, director)
are not read by any engine logic and are omitted from the row model.
-/

namespace MovieApp

/-! ## Character-list helpers mirroring Python string operations -/

/-- Whether `needle` begins `hay` (helper for the substring test below). -/
def isPrefixChars : List Char → List Char → Bool
  | [], _ => true
  | _ :: _, [] => false
  | a :: as, b :: bs => a == b && isPrefixChars as bs

/-- Python `needle in hay` on strings: `needle` occurs contiguously in `hay`. -/
def isSubChars (needle : List Char) : List Char → Bool
  | [] => isPrefixChars needle []
  | b :: bs => isPrefixChars needle (b :: bs) || isSubChars needle bs

/-- Python `str.strip()`: drop leading and trailing whitespace. -/
def stripChars (l : List Char) : List Char :=
  ((l.dropWhile Char.isWhitespace).reverse.dropWhile Char.isWhitespace).reverse

/-- Python `str.split(",")`: cut at every comma, keeping empty pieces. -/
def splitOnComma : List Char → List (List Char)
  | [] => [[]]
  | c :: rest =>
    match splitOnComma rest with
    | [] => [[c]]
    | piece :: pieces =>
      if c == ',' then [] :: piece :: pieces else (c :: piece) :: pieces

/-- The regex `(\d+)` of `Series.str.extract` applied to one cell: the first
contiguous run of digits, or `none` when the cell has no digit. -/
def firstDigitRun : List Char → Option (List Char)
  | [] => none
  | c :: rest =>
    if c.isDigit then some (c :: rest.takeWhile Char.isDigit)
    else firstDigitRun rest

/-- Numeric value of a digit string (the integer conversion of a matched group). -/
def digitsToNat (l : List Char) : Nat :=
  l.foldl (fun acc c => acc * 10 + (c.toNat - 48)) 0

/-- Python code-point comparison of strings, as used by `sorted`. -/
def charListLe : List Char → List Char → Bool
  | [], _ => true
  | _ :: _, [] => false
  | a :: as, b :: bs => if a == b then charListLe as bs else decide (a < b)

/-! ## Data model -/

/-- One row of the raw CSV, restricted to the columns the engine reads.
`none` models a NaN cell of a column that can be missing. -/
structure RawRow where
  seriesTitle : String
  releasedYear : Int
  runtime : Option String
  genre : Option String
  imdbRating : ℚ
deriving DecidableEq, Repr

/-- A row after `load_data` has added the derived `Runtime_Minutes` and
`Decade` columns.  `runtimeMinutes` stays optional because `filter_movies`
treats a NaN runtime as failing every `<=` comparison. -/
structure Record where
  seriesTitle : String
  releasedYear : Int
  runtime : Option String
  genre : Option String
  imdbRating : ℚ
  runtimeMinutes : Option Int
  decade : Int
deriving DecidableEq, Repr

/-! ## Loader (`load_data`, lines 13-37) -/

/-- Model of `df['Runtime'].str.extract('(\d+)')` on one cell: a NaN cell or a cell
without digits yields `none`, otherwise the first digit run as an integer. -/
def parseRuntime (row : RawRow) : Option Int :=
  (row.runtime.bind fun s => firstDigitRun s.toList).map fun ds =>
    (digitsToNat ds : Int)

/-- Model of `Decade = (Released_Year // 10) * 10` with Python floor division. -/
def decadeOf (year : Int) : Int := year.fdiv 10 * 10

/-- The full record for one row; `none` exactly when `astype(int)` would raise
on this row's extracted runtime group. -/
def mkRecord (row : RawRow) : Option Record :=
  (parseRuntime row).map fun m =>
    { seriesTitle := row.seriesTitle
      releasedYear := row.releasedYear
      runtime := row.runtime
      genre := row.genre
      imdbRating := row.imdbRating
      runtimeMinutes := some m
      decade := decadeOf row.releasedYear }

/-- The whole-column `astype(int)` conversion: pandas converts the extracted
column in one vectorised call, so a single row without a digit run raises and
no column is produced at all.  Modelled as `Option`-valued recursion. -/
def loadRecords : List RawRow → Option (List Record)
  | [] => some []
  | row :: rest =>
    match mkRecord row, loadRecords rest with
    | some r, some rs => some (r :: rs)
    | _, _ => none

/-- Tokens of one raw `Genre` cell: split on commas, strip whitespace
(`load_data` lines 30-32). -/
def splitTrim (s : String) : List String :=
  (splitOnComma s.toList).map fun piece => String.mk (stripChars piece)

/-- The catalog-level genre vocabulary: the union of the token sets of all
rows with a non-NaN `Genre`, returned as `sorted(list(all_genres))`. -/
def allGenresOf (rows : List RawRow) : List String :=
  let toks := rows.foldl
    (fun acc row =>
      match row.genre with
      | none => acc
      | some s => acc ++ splitTrim s) []
  List.insertionSort (fun a b => charListLe a.toList b.toList = true) toks.dedup

/-- Model of `load_data`: returns the frame with its derived columns together with the
genre vocabulary, or no data at all when an exception was raised — in
particular when some row's runtime has no digit run, which makes the
vectorised `astype(int)` raise and sends control to the `except` branch that
returns `None, None`. -/
def load_data (rows : List RawRow) : Option (List Record × List String) :=
  (loadRecords rows).map fun recs => (recs, allGenresOf rows)

/-! ## Filter engine (`filter_movies`, lines 39-58) -/

/-- The genre mask of lines 45-47: Python substring test `genre in str(x)` for
any selected genre; a NaN cell gives `False`. -/
def genreMask (selectedGenres : List String) (cell : Option String) : Bool :=
  match cell with
  | none => false
  | some s => selectedGenres.any fun g => isSubChars g.toList s.toList

/-- The runtime comparison of line 52, `Runtime_Minutes <= max_runtime`; a NaN
runtime compares `False`. -/
def runtimeMask (maxRuntime : Int) (cell : Option Int) : Bool :=
  match cell with
  | none => false
  | some m => m ≤ maxRuntime

/-- Model of `filter_movies`: the three masks applied in sequence.  Each mask is
skipped when its criterion is Python-falsy: an empty genre list, a `None` or
`0` max runtime (line 51 is `if max_runtime:`), an empty decade list. -/
def filter_movies (df : List Record) (selectedGenres : List String)
    (maxRuntime : Option Int) (selectedDecades : List Int) : List Record :=
  let step1 :=
    if selectedGenres.isEmpty then df
    else df.filter fun r => genreMask selectedGenres r.genre
  let step2 :=
    match maxRuntime with
    | none => step1
    | some m =>
      if m == 0 then step1
      else step1.filter fun r => runtimeMask m r.runtimeMinutes
  if selectedDecades.isEmpty then step2
  else step2.filter fun r => selectedDecades.contains r.decade

/-- The effective genre predicate of one `filter_movies` call (the mask, or
vacuously true when no genre is selected). -/
def genrePass (sel : List String) (r : Record) : Bool :=
  sel.isEmpty || genreMask sel r.genre

/-- The effective runtime predicate of one `filter_movies` call: vacuously
true when `max_runtime` is `None` or `0` (both Python-falsy). -/
def runtimePass (mr : Option Int) (r : Record) : Bool :=
  match mr with
  | none => true
  | some m => m == 0 || runtimeMask m r.runtimeMinutes

/-- The effective decade predicate of one `filter_movies` call. -/
def decadePass (ds : List Int) (r : Record) : Bool :=
  ds.isEmpty || ds.contains r.decade

/-! ## Ranker / aggregator (`main`, lines 113-202) -/

/-- Model of `sort_values('IMDB_Rating', ascending=False)` (line 120).  pandas computes
an ascending argsort of the column and reverses it (`nargsort`); the ascending
argsort is modelled by a stable ascending sort.  (numpy's default quicksort is
insertion sort — stable — on small inputs; on larger inputs it guarantees no
stability, so the model is exact on small frames and one deterministic choice
otherwise.) -/
def sortByRatingDesc (l : List Record) : List Record :=
  (List.insertionSort (fun a b => a.imdbRating ≤ b.imdbRating) l).reverse

/-- Value of the `st.selectbox` "Movies to display": one of the counts
10/25/50/100 or the string `"All"`. -/
inductive DisplayCount where
  | count (n : Int)
  | all
deriving DecidableEq, Repr

/-- Model of `df.head(n)`, i.e. `df.iloc[:n]`: the first `n` rows; a negative `n`
keeps all but the last `-n` rows; there is no validation of `n`. -/
def headDF (df : List Record) (n : Int) : List Record :=
  if 0 ≤ n then df.take n.toNat else df.take (df.length - (-n).toNat)

/-- Lines 131-134: truncate with `head` unless the selection is `"All"`. -/
def truncateTo (df : List Record) : DisplayCount → List Record
  | .all => df
  | .count n => headDF df n

/-- Model of `Series.mean()` with pandas default `skipna=True` over an optional-valued
column: NaN entries are dropped from numerator and denominator; the mean of an
empty or all-NaN column is NaN, modelled as `none`. -/
def seriesMean (cells : List (Option ℚ)) : Option ℚ :=
  let present := cells.filterMap id
  if present.isEmpty then none else some (present.sum / present.length)

/-- Model of `mode().iloc[0]` on the decade column: pandas `mode` returns the values of
maximal multiplicity sorted ascending, so `iloc[0]` is the smallest of them;
`none` for an empty column. -/
def modeSmallest (ds : List Int) : Option Int :=
  match ds.dedup with
  | [] => none
  | c :: cs =>
    some (cs.foldl
      (fun best d =>
        if ds.count best < ds.count d ∨ (ds.count d = ds.count best ∧ d < best)
        then d else best) c)

/-- The four summary metrics of lines 190-202, computed from the filtered
(sorted, untruncated) frame. -/
structure Stats where
  averageRating : Option ℚ
  averageRuntime : Option ℚ
  modalDecade : Option Int
  totalMovies : Nat
deriving DecidableEq, Repr

/-- Compute the summary statistics of a frame. -/
def computeStats (df : List Record) : Stats :=
  { averageRating := seriesMean (df.map fun r => some r.imdbRating)
    averageRuntime := seriesMean (df.map fun r => r.runtimeMinutes.map fun m => (m : ℚ))
    modalDecade := modeSmallest (df.map fun r => r.decade)
    totalMovies := df.length }

/-- What one run of `main` renders, seen through the engine: the matched count
of the header (line 113), the movie list actually iterated over (line 137),
and the statistics block, which is absent (`none`) when the zero-match early
return of lines 115-117 fires before it. -/
structure ResultView where
  totalMatched : Nat
  displayed : List Record
  stats : Option Stats
deriving DecidableEq, Repr

/-- Outcome of one run of `main`: either the load failed (`st.error` followed
by `st.stop`, lines 36 and 67-68) or a result view was rendered. -/
inductive MainOutcome where
  | loadFailed
  | page (v : ResultView)
deriving DecidableEq, Repr

/-- Model of `main` (lines 60-202), restricted to the engine-visible data flow: load,
filter, the early return on zero matches, sort, truncate, and statistics over
the sorted untruncated frame. -/
def main (rows : List RawRow) (selectedGenres : List String)
    (maxRuntime : Option Int) (selectedDecades : List Int)
    (displayCount : DisplayCount) : MainOutcome :=
  match load_data rows with
  | none => .loadFailed
  | some (df, _vocab) =>
    let filtered := filter_movies df selectedGenres maxRuntime selectedDecades
    if filtered.length = 0 then .page ⟨0, [], none⟩
    else
      let ranked := sortByRatingDesc filtered
      .page ⟨filtered.length, truncateTo ranked displayCount, some (computeStats ranked)⟩

/-! ## Sample data used in concrete theorems -/

/-- A well-formed CSV row. -/
def rowGood : RawRow :=
  { seriesTitle := "The Shawshank Redemption", releasedYear := 1994,
    runtime := some "142 min", genre := some "Drama", imdbRating := 9 }

/-- A row whose `Runtime` cell has no digit, so `str.extract('(\d+)')` yields
NaN for it and `astype(int)` raises. -/
def rowBad : RawRow :=
  { seriesTitle := "Broken Row", releasedYear := 2000,
    runtime := some "N/A min", genre := some "Comedy", imdbRating := 8 }

/-- The record `load_data` derives from `rowGood`. -/
def recGood : Record :=
  { seriesTitle := "The Shawshank Redemption", releasedYear := 1994,
    runtime := some "142 min", genre := some "Drama", imdbRating := 9,
    runtimeMinutes := some 142, decade := 1990 }

/-- A record with rating 7. -/
def rec7 : Record :=
  { seriesTitle := "Seven Samples", releasedYear := 1970, runtime := some "70 min",
    genre := some "Drama", imdbRating := 7, runtimeMinutes := some 70, decade := 1970 }

/-- First of two records tied at rating 8. -/
def recTieA : Record :=
  { seriesTitle := "Tie A", releasedYear := 1980, runtime := some "100 min",
    genre := some "Drama", imdbRating := 8, runtimeMinutes := some 100, decade := 1980 }

/-- Second of two records tied at rating 8. -/
def recTieB : Record :=
  { seriesTitle := "Tie B", releasedYear := 1985, runtime := some "90 min",
    genre := some "Comedy", imdbRating := 8, runtimeMinutes := some 90, decade := 1980 }

/-- A record whose raw genre field contains the token `Musical` but not the
token `Music` — while the string "Music" is a substring of it. -/
def recMusical : Record :=
  { seriesTitle := "An American in Paris", releasedYear := 1951,
    runtime := some "114 min", genre := some "Comedy, Musical, Romance",
    imdbRating := 7, runtimeMinutes := some 114, decade := 1950 }

/-- A record with a NaN `Runtime_Minutes` (the data-model shape of the spec for
a record whose runtime failed to parse). -/
def recNull : Record :=
  { seriesTitle := "No Runtime", releasedYear := 1960, runtime := some "unknown",
    genre := some "Drama", imdbRating := 8, runtimeMinutes := none, decade := 1960 }

/-! ## Helper lemmas -/

/-- Unfolding lemma: `filter_movies` equals a single `filter` by the conjunction of the three
effective predicates. -/
theorem filter_movies_eq (df : List Record) (sel : List String)
    (mr : Option Int) (ds : List Int) :
    filter_movies df sel mr ds
      = df.filter fun r => genrePass sel r && runtimePass mr r && decadePass ds r := by
  unfold filter_movies genrePass runtimePass decadePass
  cases mr with
  | none =>
    by_cases hs : sel.isEmpty <;> by_cases hd : ds.isEmpty <;>
      simp [hs, hd, List.filter_filter, Bool.and_comm]
  | some m =>
    by_cases hs : sel.isEmpty <;> by_cases hm : m == 0 <;> by_cases hd : ds.isEmpty <;>
      simp [hs, hm, hd, List.filter_filter, Bool.and_comm, Bool.and_left_comm]

/-- Membership in the output of `filter_movies`, spelled out. -/
theorem mem_filter_movies {df : List Record} {sel : List String}
    {mr : Option Int} {ds : List Int} {r : Record} :
    r ∈ filter_movies df sel mr ds ↔
      r ∈ df ∧ genrePass sel r = true ∧ runtimePass mr r = true ∧ decadePass ds r = true := by
  rw [filter_movies_eq, List.mem_filter]
  simp [Bool.and_eq_true, and_assoc]

/-- Widening a non-empty genre selection weakens the genre predicate. -/
theorem genrePass_cons (g : String) (sel : List String) (r : Record)
    (hsel : sel ≠ []) (hp : genrePass sel r = true) :
    genrePass (g :: sel) r = true := by
  unfold genrePass genreMask at hp ⊢
  cases sel with
  | nil => exact absurd rfl hsel
  | cons a as =>
    cases hr : r.genre with
    | none => simp [hr] at hp
    | some s =>
      simp only [hr, List.isEmpty_cons, Bool.false_or, List.any_cons,
        Bool.or_eq_true] at hp ⊢
      exact Or.inr hp

/-- Widening a non-empty decade selection weakens the decade predicate. -/
theorem decadePass_cons (d : Int) (ds : List Int) (r : Record)
    (hds : ds ≠ []) (hp : decadePass ds r = true) :
    decadePass (d :: ds) r = true := by
  unfold decadePass at hp ⊢
  cases ds with
  | nil => exact absurd rfl hds
  | cons a as =>
    simp only [List.isEmpty_cons, Bool.false_or, List.contains_cons,
      Bool.or_eq_true] at hp ⊢
    exact Or.inr hp

/-- Raising a non-zero runtime ceiling to a larger non-zero ceiling weakens
the runtime predicate. -/
theorem runtimePass_mono (m m' : Int) (r : Record) (h0 : m' ≠ 0)
    (hle : m' ≤ m) (hp : runtimePass (some m') r = true) :
    runtimePass (some m) r = true := by
  unfold runtimePass runtimeMask at hp ⊢
  revert hp
  cases r.runtimeMinutes with
  | none =>
    intro hp
    simp only [Bool.or_false, beq_iff_eq] at hp
    exact absurd hp h0
  | some v =>
    intro hp
    simp only [Bool.or_eq_true, beq_iff_eq, decide_eq_true_eq] at hp ⊢
    rcases hp with h | h
    · exact absurd h h0
    · exact Or.inr (le_trans h hle)

/-- Appending a NaN cell changes neither numerator nor denominator of a
pandas mean. -/
theorem seriesMean_append_none (cells : List (Option ℚ)) :
    seriesMean (cells ++ [none]) = seriesMean cells := by
  unfold seriesMean
  simp [List.filterMap_append]

/-- A successful `load_data` is a successful `loadRecords`. -/
theorem loadRecords_of_load_data {rows : List RawRow} {recs : List Record}
    {vocab : List String} (h : load_data rows = some (recs, vocab)) :
    loadRecords rows = some recs := by
  unfold load_data at h
  cases hl : loadRecords rows with
  | none => rw [hl] at h; simp at h
  | some l => rw [hl] at h; simp at h; rw [h.1]

/-! ## Claim theorems -/

/-- C1 (counterexample).  Genre matching is NOT exact token-set intersection:
the record whose raw genre field is "Comedy, Musical, Romance" is returned by
`filter_movies` for the selection `["Music"]`, although "Music" is not among
its comma-split, trimmed genre tokens — the Python substring test
`"Music" in "Comedy, Musical, Romance"` succeeds through the token
"Musical". -/
theorem C1_genre_substring_counterexample :
    filter_movies [recMusical] ["Music"] none [] = [recMusical] ∧
      splitTrim "Comedy, Musical, Romance" = ["Comedy", "Musical", "Romance"] ∧
      "Music" ∉ splitTrim "Comedy, Musical, Romance" := by
  decide

/-- C1 (amended).  For a non-empty genre selection, a record is in the output
of `filter_movies` iff it is in the input frame and passes the three masks,
where the genre mask is substring containment of some selected genre in the
raw genre string (`genre in str(x)`), a NaN genre cell failing outright —
not exact-token-set intersection. -/
theorem C1_genre_substring_amended (df : List Record) (sel : List String)
    (mr : Option Int) (ds : List Int) (r : Record) (hsel : sel ≠ []) :
    (r ∈ filter_movies df sel mr ds ↔
      r ∈ df ∧ genreMask sel r.genre = true ∧ runtimePass mr r = true ∧
        decadePass ds r = true) ∧
    (∀ s : String,
      genreMask sel (some s) = true ↔ ∃ g ∈ sel, isSubChars g.toList s.toList = true) ∧
    genreMask sel none = false := by
  have hempty : sel.isEmpty = false := by
    cases sel with
    | nil => exact absurd rfl hsel
    | cons a as => rfl
  refine ⟨?_, ?_, rfl⟩
  · rw [mem_filter_movies]
    unfold genrePass
    rw [hempty]
    simp only [Bool.false_or]
  · intro s
    unfold genreMask
    rw [List.any_eq_true]

/-- C1 (amended, witness). -/
theorem C1_genre_substring_amended_witness :
    (recMusical ∈ filter_movies [recMusical] ["Music"] none [] ↔
      recMusical ∈ [recMusical] ∧ genreMask ["Music"] recMusical.genre = true ∧
        runtimePass none recMusical = true ∧ decadePass [] recMusical = true) ∧
    (genreMask ["Music"] (some "Comedy, Musical, Romance") = true ↔
      ∃ g ∈ ["Music"], isSubChars g.toList "Comedy, Musical, Romance".toList = true) ∧
    genreMask ["Music"] none = false :=
  have h := C1_genre_substring_amended [recMusical] ["Music"] none [] recMusical
    (by decide)
  ⟨h.1, h.2.1 "Comedy, Musical, Romance", h.2.2⟩

/-- C2 (counterexample).  One row whose `Runtime` cell has no digit run does
NOT leave a null-runtime record in a successfully returned catalog: it makes
the whole load fail (`astype(int)` raises, the handler returns no data), even
though the same frame without that row loads fine. -/
theorem C2_unparsable_runtime_counterexample :
    load_data [rowGood, rowBad] = none ∧
      load_data [rowGood] = some ([recGood], ["Drama"]) := by
  decide

/-- C2 (amended).  If any row's runtime has no contiguous integer substring,
`load_data` fails as a whole and returns no catalog at all — it does not keep
the row with a null `runtime_minutes`. -/
theorem C2_unparsable_runtime_amended (rows : List RawRow) (row : RawRow)
    (hmem : row ∈ rows) (hbad : parseRuntime row = none) :
    load_data rows = none := by
  suffices h : loadRecords rows = none by
    unfold load_data
    rw [h]
    rfl
  induction rows with
  | nil => cases hmem
  | cons a as ih =>
    rcases List.mem_cons.mp hmem with h | h
    · subst h
      unfold loadRecords mkRecord
      rw [hbad]
      rfl
    · have hrest := ih h
      unfold loadRecords
      rw [hrest]
      cases mkRecord a <;> rfl

/-- C2 (amended, witness). -/
theorem C2_unparsable_runtime_amended_witness :
    load_data [rowGood, rowBad] = none :=
  C2_unparsable_runtime_amended [rowGood, rowBad] rowBad (by decide) (by decide)

/-- C9 (confirmed).  The output of `filter_movies` is a sublist of the input
frame: records are removed, never reordered or duplicated. -/
theorem C9_filter_sublist (df : List Record) (sel : List String)
    (mr : Option Int) (ds : List Int) :
    (filter_movies df sel mr ds).Sublist df := by
  rw [filter_movies_eq]
  exact List.filter_sublist df

/-- C10 (confirmed).  Every record of a successfully loaded catalog carries a
non-null integer `runtime_minutes`: `load_data` either parses a runtime for
every row or fails and returns no catalog. -/
theorem C10_loaded_runtime_some (rows : List RawRow) (recs : List Record)
    (vocab : List String) (h : load_data rows = some (recs, vocab)) :
    ∀ r ∈ recs, ∃ n : Int, r.runtimeMinutes = some n := by
  have hrecs := loadRecords_of_load_data h
  clear h
  induction rows generalizing recs with
  | nil =>
    unfold loadRecords at hrecs
    cases hrecs
    intro r hr
    cases hr
  | cons a as ih =>
    unfold loadRecords at hrecs
    cases hmk : mkRecord a with
    | none => rw [hmk] at hrecs; cases hrecs
    | some rec =>
      rw [hmk] at hrecs
      cases hrest : loadRecords as with
      | none => rw [hrest] at hrecs; cases hrecs
      | some rs =>
        rw [hrest] at hrecs
        cases hrecs
        intro r hr
        rcases List.mem_cons.mp hr with h | h
        · subst h
          unfold mkRecord at hmk
          cases hpr : parseRuntime a with
          | none => rw [hpr] at hmk; cases hmk
          | some m =>
            rw [hpr] at hmk
            cases hmk
            exact ⟨m, rfl⟩
        · exact ih rs hrest r h

/-- C10 (witness). -/
theorem C10_loaded_runtime_some_witness :
    ∃ n : Int, recGood.runtimeMinutes = some n :=
  C10_loaded_runtime_some [rowGood] [recGood] ["Drama"] (by decide) recGood
    (by decide)

/-- C3 (counterexample).  The ranking is NOT stable with respect to the
original catalog order: two records tied at rating 8 come out in reversed
order, because pandas obtains the descending order by reversing an ascending
argsort. -/
theorem C3_sort_stability_counterexample :
    recTieA.imdbRating = recTieB.imdbRating ∧
      sortByRatingDesc [recTieA, recTieB] = [recTieB, recTieA] ∧
      ([recTieB, recTieA] : List Record) ≠ [recTieA, recTieB] := by
  decide

/-- C3 (amended).  The ranking step returns a permutation of its input whose
ratings are in non-increasing order; it is deterministic (a pure function of
the input list), but ties are not broken by original catalog order. -/
theorem C3_sort_descending_amended (l : List Record) :
    (sortByRatingDesc l).Perm l ∧
      (sortByRatingDesc l).Pairwise fun a b => b.imdbRating ≤ a.imdbRating := by
  constructor
  · exact (List.reverse_perm _).trans (List.perm_insertionSort _ l)
  · unfold sortByRatingDesc
    rw [List.pairwise_reverse]
    haveI : IsTotal Record fun a b => a.imdbRating ≤ b.imdbRating :=
      ⟨fun a b => le_total _ _⟩
    haveI : IsTrans Record fun a b => a.imdbRating ≤ b.imdbRating :=
      ⟨fun _ _ _ hab hbc => le_trans hab hbc⟩
    exact List.sorted_insertionSort _ l

/-- C4 (counterexample).  A zero or negative display limit does not fail with
any error (nothing named `InvalidParameterError` exists in the code): `head(0)`
yields an empty page and `head(-1)` keeps all but the last record. -/
theorem C4_limit_validation_counterexample :
    truncateTo [recTieA, recTieB, recGood] (.count 0) = [] ∧
      truncateTo [recTieA, recTieB, recGood] (.count (-1)) = [recTieA, recTieB] := by
  decide

/-- C4 (amended).  A positive finite limit truncates the ranked list to its
first `n` records (hence at most `n`); the `"All"` sentinel performs no
truncation; a zero limit yields an empty page without failing — there is no
parameter validation and no `InvalidParameterError`. -/
theorem C4_truncation_amended (l : List Record) (n : Int) (hn : 0 < n) :
    truncateTo l (.count n) = l.take n.toNat ∧
      (truncateTo l (.count n)).length = min n.toNat l.length ∧
      truncateTo l .all = l ∧
      truncateTo l (.count 0) = [] := by
  have h0 : (0 : Int) ≤ n := le_of_lt hn
  refine ⟨?_, ?_, rfl, ?_⟩
  · simp [truncateTo, headDF, h0]
  · simp [truncateTo, headDF, h0, List.length_take]
  · simp [truncateTo, headDF]

/-- C4 (amended, witness). -/
theorem C4_truncation_amended_witness :
    truncateTo [recTieA, recTieB, recGood] (.count 2)
        = List.take (Int.toNat 2) [recTieA, recTieB, recGood] ∧
      (truncateTo [recTieA, recTieB, recGood] (.count 2)).length
        = min (Int.toNat 2) ([recTieA, recTieB, recGood] : List Record).length ∧
      truncateTo [recTieA, recTieB, recGood] .all = [recTieA, recTieB, recGood] ∧
      truncateTo [recTieA, recTieB, recGood] (.count 0) = [] :=
  C4_truncation_amended [recTieA, recTieB, recGood] 2 (by decide)

/-- C7 (counterexample).  The monotonicity claims fail at the Python-falsy
boundary: adding a genre to an EMPTY selection turns the genre mask on and can
shrink the result (1 match to 0), adding a decade to an empty selection
likewise, and lowering the runtime ceiling from 5 to 0 turns the runtime mask
OFF (`if max_runtime:` is false at 0) and grows the result (0 matches to 1). -/
theorem C7_monotonicity_counterexample :
    (filter_movies [recGood] [] none []).length = 1 ∧
      (filter_movies [recGood] ["Comedy"] none []).length = 0 ∧
      (filter_movies [recGood] [] none [2000]).length = 0 ∧
      (filter_movies [recNull] [] (some 5) []).length = 0 ∧
      (filter_movies [recNull] [] (some 0) []).length = 1 := by
  decide

/-- C7 (amended).  The monotonicity laws hold away from the falsy boundary:
adding a genre to a non-empty selection never shrinks the result, adding a
decade to a non-empty selection never shrinks it, and lowering the runtime
ceiling between two non-zero values never grows it. -/
theorem C7_monotonicity_amended (df : List Record) (sel : List String)
    (ds : List Int) (mr : Option Int) (g : String) (d : Int) (m m' : Int) :
    (sel ≠ [] →
      (filter_movies df sel mr ds).length ≤ (filter_movies df (g :: sel) mr ds).length) ∧
    (ds ≠ [] →
      (filter_movies df sel mr ds).length ≤ (filter_movies df sel mr (d :: ds)).length) ∧
    (m' ≠ 0 → m ≠ 0 → m' ≤ m →
      (filter_movies df sel (some m') ds).length
        ≤ (filter_movies df sel (some m) ds).length) := by
  refine ⟨fun hsel => ?_, fun hds => ?_, fun h0 _h1 hle => ?_⟩
  · rw [filter_movies_eq, filter_movies_eq]
    refine List.Sublist.length_le (List.monotone_filter_right df fun r hr => ?_)
    simp only [Bool.and_eq_true] at hr ⊢
    exact ⟨⟨genrePass_cons g sel r hsel hr.1.1, hr.1.2⟩, hr.2⟩
  · rw [filter_movies_eq, filter_movies_eq]
    refine List.Sublist.length_le (List.monotone_filter_right df fun r hr => ?_)
    simp only [Bool.and_eq_true] at hr ⊢
    exact ⟨hr.1, decadePass_cons d ds r hds hr.2⟩
  · rw [filter_movies_eq, filter_movies_eq]
    refine List.Sublist.length_le (List.monotone_filter_right df fun r hr => ?_)
    simp only [Bool.and_eq_true] at hr ⊢
    exact ⟨⟨hr.1.1, runtimePass_mono m m' r h0 hle hr.1.2⟩, hr.2⟩

/-- C7 (amended, witness). -/
theorem C7_monotonicity_amended_witness :
    ((filter_movies [recGood] ["Drama"] none [1990]).length
        ≤ (filter_movies [recGood] ("Comedy" :: ["Drama"]) none [1990]).length) ∧
    ((filter_movies [recGood] ["Drama"] none [1990]).length
        ≤ (filter_movies [recGood] ["Drama"] none (2000 :: [1990])).length) ∧
    ((filter_movies [recGood] ["Drama"] (some 100) [1990]).length
        ≤ (filter_movies [recGood] ["Drama"] (some 200) [1990]).length) :=
  have h := C7_monotonicity_amended [recGood] ["Drama"] [1990] none "Comedy" 2000 200 100
  ⟨h.1 (by decide), h.2.1 (by decide), h.2.2 (by decide) (by decide) (by decide)⟩

/-- C8 (counterexample).  A record with a null `runtime_minutes` is NOT
excluded whenever `max_runtime_minutes` is set: setting the ceiling to the
integer 0 is Python-falsy, so line 51 skips the runtime mask entirely and the
null-runtime record is returned; a non-zero ceiling does exclude it. -/
theorem C8_null_runtime_counterexample :
    recNull.runtimeMinutes = none ∧
      filter_movies [recNull] [] (some 0) [] = [recNull] ∧
      filter_movies [recNull] [] (some 1000000) [] = [] := by
  decide

/-- C8 (amended).  For a NON-ZERO ceiling `m`: a null-runtime record is always
excluded, and a record with runtime `v` passes the runtime gate iff `v ≤ m`
(conjoined with the other two predicates); with the ceiling unset every record
passes the runtime gate, subject only to the other predicates.  (A ceiling set
to the Python-falsy 0 behaves like an unset one.) -/
theorem C8_null_runtime_amended (df : List Record) (sel : List String)
    (ds : List Int) (r : Record) (m : Int) (hm : m ≠ 0) :
    (r.runtimeMinutes = none → r ∉ filter_movies df sel (some m) ds) ∧
    (∀ v : Int, r.runtimeMinutes = some v →
      (r ∈ filter_movies df sel (some m) ds ↔
        r ∈ df ∧ genrePass sel r = true ∧ v ≤ m ∧ decadePass ds r = true)) ∧
    (r ∈ filter_movies df sel none ds ↔
      r ∈ df ∧ genrePass sel r = true ∧ decadePass ds r = true) := by
  refine ⟨fun hnull hmem => ?_, fun v hv => ?_, ?_⟩
  · rw [mem_filter_movies] at hmem
    have := hmem.2.2.1
    unfold runtimePass runtimeMask at this
    rw [hnull] at this
    simp only [Bool.or_false, beq_iff_eq] at this
    exact hm this
  · rw [mem_filter_movies]
    unfold runtimePass runtimeMask
    rw [hv]
    simp only [beq_iff_eq, hm, Bool.or_eq_true, decide_eq_true_eq, false_or]
  · rw [mem_filter_movies]
    unfold runtimePass
    simp

/-- C8 (amended, witness). -/
theorem C8_null_runtime_amended_witness :
    (recNull ∉ filter_movies [recNull] [] (some 100) []) ∧
    ((recGood ∈ filter_movies [recGood] [] (some 150) []) ↔
      (recGood ∈ [recGood] ∧ genrePass [] recGood = true ∧ (142 : Int) ≤ 150 ∧
        decadePass [] recGood = true)) ∧
    ((recNull ∈ filter_movies [recNull] [] none []) ↔
      (recNull ∈ [recNull] ∧ genrePass [] recNull = true ∧
        decadePass [] recNull = true)) :=
  ⟨(C8_null_runtime_amended [recNull] [] [] recNull 100 (by decide)).1 rfl,
    (C8_null_runtime_amended [recGood] [] [] recGood 150 (by decide)).2.1 142 rfl,
    (C8_null_runtime_amended [recNull] [] [] recNull 100 (by decide)).2.2⟩

/-- C5 (confirmed).  The statistics of a rendered page are computed over the
full filtered set, not the truncated page: they (and the matched count) do not
depend on the display limit; the average rating of three records rated 9, 8
and 7 is exactly 8; and a record with a null `runtime_minutes` is excluded
from both the numerator and the denominator of the runtime average. -/
theorem C5_statistics_full_set :
    (∀ (rows : List RawRow) (sel : List String) (mr : Option Int) (ds : List Int)
      (dc dc' : DisplayCount) (v v' : ResultView),
      main rows sel mr ds dc = .page v → main rows sel mr ds dc' = .page v' →
      v.stats = v'.stats ∧ v.totalMatched = v'.totalMatched) ∧
    (∀ r1 r2 r3 : Record,
      r1.imdbRating = 9 → r2.imdbRating = 8 → r3.imdbRating = 7 →
      (computeStats [r1, r2, r3]).averageRating = some 8) ∧
    (∀ (l : List Record) (r : Record), r.runtimeMinutes = none →
      (computeStats (l ++ [r])).averageRuntime = (computeStats l).averageRuntime) := by
  refine ⟨?_, ?_, ?_⟩
  · intro rows sel mr ds dc dc' v v' h1 h2
    unfold main at h1 h2
    cases hl : load_data rows with
    | none =>
      rw [hl] at h1
      cases h1
    | some p =>
      obtain ⟨df, vocab⟩ := p
      rw [hl] at h1 h2
      simp at h1 h2
      split_ifs at h1 h2 with hf
      all_goals
        injection h1 with h1
        injection h2 with h2
        subst h1
        subst h2
        exact ⟨rfl, rfl⟩
  · intro r1 r2 r3 h1 h2 h3
    simp [computeStats, seriesMean, h1, h2, h3]
    norm_num
  · intro l r h
    unfold computeStats
    simp only [List.map_append, List.map_cons, List.map_nil, h, Option.map_none']
    exact seriesMean_append_none _

/-- C5 (witness). -/
theorem C5_statistics_full_set_witness :
    ((⟨1, [], some (computeStats [recGood])⟩ : ResultView).stats
        = (⟨1, [recGood], some (computeStats [recGood])⟩ : ResultView).stats ∧
      (⟨1, [], some (computeStats [recGood])⟩ : ResultView).totalMatched
        = (⟨1, [recGood], some (computeStats [recGood])⟩ : ResultView).totalMatched) ∧
    (computeStats [recGood, recTieA, rec7]).averageRating = some 8 ∧
    (computeStats ([recGood] ++ [recNull])).averageRuntime
      = (computeStats [recGood]).averageRuntime :=
  ⟨C5_statistics_full_set.1 [rowGood] [] none [] (.count 0) .all
      ⟨1, [], some (computeStats [recGood])⟩
      ⟨1, [recGood], some (computeStats [recGood])⟩ rfl rfl,
    C5_statistics_full_set.2.1 recGood recTieA rec7 rfl rfl rfl,
    C5_statistics_full_set.2.2 [recGood] recNull rfl⟩

/-- C6 (confirmed).  When the criteria match nothing, `main` still renders a
result page — zero matched, nothing listed, the statistics block absent (the
"unavailable" form of every statistic) — it neither raises nor is confused
with a load failure, which is a distinct outcome. -/
theorem C6_zero_matches (rows : List RawRow) (sel : List String) (mr : Option Int)
    (ds : List Int) (dc : DisplayCount) (df : List Record) (vocab : List String)
    (hload : load_data rows = some (df, vocab))
    (hempty : filter_movies df sel mr ds = []) :
    main rows sel mr ds dc = .page ⟨0, [], none⟩ ∧
      MainOutcome.page ⟨0, [], none⟩ ≠ MainOutcome.loadFailed := by
  constructor
  · unfold main
    rw [hload]
    simp [hempty]
  · intro h
    cases h

/-- C6 (witness). -/
theorem C6_zero_matches_witness :
    main [rowGood] ["Western"] none [] (.count 10) = .page ⟨0, [], none⟩ ∧
      MainOutcome.page ⟨0, [], none⟩ ≠ MainOutcome.loadFailed :=
  C6_zero_matches [rowGood] ["Western"] none [] (.count 10) [recGood] ["Drama"]
    (by decide) (by decide)

end MovieApp
